import Mathlib

/-!
Verification of the Blogicum blog application's query/authorization layer.

The Django code under `blogicum/blog/` is shallowly embedded: querysets
become functions on `List Post`, request handlers become pure functions
from a database state and request data to a new database state paired
with an HTTP-level `Response`.  Database rows are records; foreign keys
to users are user ids (`Nat`), matching Django's pk-based `User.__eq__`;
the post→category foreign key is embedded as the referenced `Category`
record, matching the `category__is_published` join traversal.
-/

/-- A blog category.  Only the fields the embedded code inspects are kept. -/
structure Category where
  slug : String
  is_published : Bool
  deriving DecidableEq

/-- A blog post row.  `author` is the author's user id; `category` is the
referenced category row (the FK join target). -/
structure Post where
  id : Nat
  title : String
  text : String
  author : Nat
  category : Category
  pub_date : Int
  is_published : Bool
  deriving DecidableEq

/-- A comment row.  `post` is the id of the post it references, `author`
the comment author's user id. -/
structure Comment where
  id : Nat
  post : Nat
  author : Nat
  text : String
  deriving DecidableEq

/-- An authenticated user identity: pk and the superuser flag. -/
structure User where
  id : Nat
  is_superuser : Bool
  deriving DecidableEq

/-- `request.user`: either Django's `AnonymousUser` or an authenticated user. -/
inductive Viewer where
  | anonymous : Viewer
  | auth : User → Viewer
  deriving DecidableEq

/-- The persistent store visible to the embedded views. -/
structure DB where
  posts : List Post
  comments : List Comment
  deriving DecidableEq

/-- HTTP method of a request. -/
inductive Method where
  | GET : Method
  | POST : Method
  deriving DecidableEq

/-- The observable outcome of a request handler. -/
inductive Response where
  | render : String → Response
  | redirectPostDetail : Nat → Response
  | redirectProfile : Response
  | redirectIndex : Response
  | redirectLogin : Response
  | notFound : Response
  | serverError : Response
  deriving DecidableEq

/-! ## `blog/querysets.py` — `PostQuerySet` -/

namespace PostQuerySet

/-- `filter(category__is_published=True)` -/
def category_published (qs : List Post) : List Post :=
  qs.filter (fun p => p.category.is_published)

/-- `filter(is_published=True)` -/
def published (qs : List Post) : List Post :=
  qs.filter (fun p => p.is_published)

/-- `filter(pub_date__lte=now())`; `now` is passed explicitly. -/
def published_up_to_now (now : Int) (qs : List Post) : List Post :=
  qs.filter (fun p => decide (p.pub_date ≤ now))

/-- `self.category_published().published().published_up_to_now()` -/
def available (now : Int) (qs : List Post) : List Post :=
  published_up_to_now now (published (category_published qs))

/-- `annotate(comment_count=Count('comments'))`: each post paired with the
number of comment rows whose `post` FK references it. -/
def with_comment_count (comments : List Comment) (qs : List Post) :
    List (Post × Nat) :=
  qs.map (fun p => (p, (comments.filter (fun c => c.post == p.id)).length))

end PostQuerySet

/-- **C1** (available-set membership): a post is in the result of
`PostQuerySet.available` iff it is in the underlying queryset, it is
published, its category is published, and its publish timestamp is at
most `now`. -/
theorem c1_available_iff (now : Int) (qs : List Post) (p : Post) :
    p ∈ PostQuerySet.available now qs ↔
      p ∈ qs ∧ p.is_published = true ∧ p.category.is_published = true ∧
        p.pub_date ≤ now := by
  simp [PostQuerySet.available, PostQuerySet.published_up_to_now,
    PostQuerySet.published, PostQuerySet.category_published,
    List.mem_filter]
  tauto

/-- Concrete instantiation of `c1_available_iff`. -/
theorem c1_available_iff_witness :
    (⟨1, "t", "b", 7, ⟨"cat", true⟩, 3, true⟩ : Post) ∈
      PostQuerySet.available 5
        [⟨1, "t", "b", 7, ⟨"cat", true⟩, 3, true⟩] :=
  (c1_available_iff 5 [⟨1, "t", "b", 7, ⟨"cat", true⟩, 3, true⟩]
      ⟨1, "t", "b", 7, ⟨"cat", true⟩, 3, true⟩).mpr (by decide)

/-! ## Pagination (`paginate_queryset` in `blog/views.py`) -/

/-- Modelled from the spec: `POSTS_PER_PAGE` lives in `blog/constants.py`,
which is not among the provided sources; the spec fixes the page size at
10 items. -/
def POSTS_PER_PAGE : Nat := 10

/-- The `page` query parameter as the view receives it: absent, not an
integer (Django's `PageNotAnInteger` case), or an integer. -/
inductive PageNumber where
  | absent : PageNumber
  | invalid : PageNumber
  | num : Int → PageNumber
  deriving DecidableEq

/-- Django `Paginator.num_pages` for `count` items, page size
`POSTS_PER_PAGE`, default `orphans=0` and `allow_empty_first_page=True`:
`ceil(max(1, count) / per_page)`. -/
def Paginator_num_pages (count : Nat) : Nat :=
  (max 1 count + POSTS_PER_PAGE - 1) / POSTS_PER_PAGE

/-- Django `Paginator.get_page`'s number resolution: a missing or
non-integer page number falls back to page 1 (`PageNotAnInteger`); an
integer outside `[1, num_pages]` falls back to the last page
(`EmptyPage`). -/
def Paginator_resolve_page (count : Nat) (pn : PageNumber) : Nat :=
  match pn with
  | .absent => 1
  | .invalid => 1
  | .num n =>
    if n < 1 then Paginator_num_pages count
    else if (Paginator_num_pages count : Int) < n then Paginator_num_pages count
    else n.toNat

/-- The object list of page `page` (1-based): a slice of at most
`POSTS_PER_PAGE` items. -/
def Paginator_page_items (items : List Post) (page : Nat) : List Post :=
  (items.drop ((page - 1) * POSTS_PER_PAGE)).take POSTS_PER_PAGE

/-- `paginate_queryset(queryset, request)`: build a `Paginator` over the
queryset with page size `POSTS_PER_PAGE` and return
`paginator.get_page(request.GET.get('page'))` — the resolved page number
together with that page's object list. -/
def paginate_queryset (items : List Post) (pn : PageNumber) :
    Nat × List Post :=
  let page := Paginator_resolve_page items.length pn
  (page, Paginator_page_items items page)

/-! ## Authorization (`OnlyAuthorMixin` in `blog/views.py`) -/

namespace OnlyAuthorMixin

/-- `test_func`: `object.author == self.request.user or
self.request.user.is_superuser`.  `author` is the resource's author user
id; Django compares users by pk. -/
def test_func (author : Nat) (u : User) : Bool :=
  author == u.id || u.is_superuser

end OnlyAuthorMixin

/-- `post.author != request.user` compared against a possibly anonymous
viewer: `AnonymousUser` never equals a `User` row; authenticated users
compare by pk. -/
def viewerIs (v : Viewer) (author : Nat) : Bool :=
  match v with
  | .anonymous => false
  | .auth u => u.id == author

/-! ## Forms (`blog/forms.py` is not among the provided sources) -/

/-- Submitted comment-form data.  `client_author` is whatever author value
the client smuggled into the POST body; the handlers must ignore it. -/
structure CommentFormData where
  text : String
  client_author : Nat
  deriving DecidableEq

/-- Modelled from the spec: `CommentForm` is defined in `blog/forms.py`,
which is not among the provided sources.  The spec scopes validation to
presence ("form field validation beyond presence" is out of scope; an
empty text is a validation error), so the form is valid iff the text is
non-empty. -/
def CommentForm_is_valid (fd : CommentFormData) : Bool :=
  !(fd.text == "")

/-- Submitted post-form data, plus the author value a malicious client
may have supplied. -/
structure PostFormData where
  title : String
  text : String
  pub_date : Int
  is_published : Bool
  category : Category
  client_author : Nat
  deriving DecidableEq

/-- Modelled from the spec: `PostForm` is in the missing `blog/forms.py`;
validation is presence of the text fields. -/
def PostForm_is_valid (fd : PostFormData) : Bool :=
  !(fd.title == "") && !(fd.text == "")

/-- `form.save(commit=False)` for a bound `PostForm`: the unsaved instance
carries the submitted fields; its author slot holds whatever the client
supplied (the handlers overwrite it before saving). -/
def PostForm_instance (fd : PostFormData) (id : Nat) : Post :=
  ⟨id, fd.title, fd.text, fd.client_author, fd.category, fd.pub_date,
    fd.is_published⟩

/-- `form.save(commit=False)` for a bound `CommentForm` (post FK still
unset). -/
def CommentForm_instance (fd : CommentFormData) (id : Nat) : Comment :=
  ⟨id, 0, fd.client_author, fd.text⟩

/-- A pk not used by any existing comment row. -/
def freshCommentId (db : DB) : Nat :=
  db.comments.foldl (fun m c => max m (c.id + 1)) 0

/-- A pk not used by any existing post row. -/
def freshPostId (db : DB) : Nat :=
  db.posts.foldl (fun m p => max m (p.id + 1)) 0

/-! ## Request handlers (`blog/views.py`) -/

/-- `get_post_or_404(post_id)`: look the post up by pk among all posts
(no availability filtering). -/
def get_post_or_404 (db : DB) (post_id : Nat) : Option Post :=
  db.posts.find? (fun p => p.id == post_id)

/-- The `@login_required` decorator: an anonymous request is redirected to
the login flow before the wrapped handler runs; an authenticated request
reaches the handler. -/
def login_required (v : Viewer) (db : DB) (handler : User → DB × Response) :
    DB × Response :=
  match v with
  | .anonymous => (db, .redirectLogin)
  | .auth u => handler u

/-- `index(request)`: available posts, paginated, each post annotated in a
loop with `post.comments.count()`. -/
def index (db : DB) (now : Int) (pn : PageNumber) : List (Post × Nat) :=
  let post_list := PostQuerySet.available now db.posts
  let page_obj := paginate_queryset post_list pn
  page_obj.2.map
    (fun p => (p, (db.comments.filter (fun c => c.post == p.id)).length))

/-- `post_detail(request, post_id)`.  Raises `Http404` when the post is
absent, or unpublished and viewed by a non-author.  A POST with a valid
`CommentForm` saves a comment stamped with `request.user` and redirects;
for an anonymous poster the assignment `comment.author = request.user`
raises (Django rejects `AnonymousUser` as a FK value), surfacing as a
server error.  Otherwise the detail template is rendered. -/
def post_detail (db : DB) (v : Viewer) (m : Method) (fd : CommentFormData)
    (post_id : Nat) : DB × Response :=
  match get_post_or_404 db post_id with
  | none => (db, .notFound)
  | some post =>
    if !post.is_published && !(viewerIs v post.author) then (db, .notFound)
    else
      match m with
      | .GET => (db, .render "blog/detail.html")
      | .POST =>
        if CommentForm_is_valid fd then
          match v with
          | .anonymous => (db, .serverError)
          | .auth u =>
            let comment := CommentForm_instance fd (freshCommentId db)
            let comment := { comment with author := u.id, post := post.id }
            ({ db with comments := db.comments ++ [comment] },
              .redirectPostDetail post.id)
        else (db, .render "blog/detail.html")

/-- `PostCreateView` (`LoginRequiredMixin`, `CreateView`): on a valid form,
`form_valid` stamps `form.instance.author = self.request.user` and saves,
then redirects to the author's profile; an invalid form re-renders the
create template. -/
def PostCreateView_handle (v : Viewer) (db : DB) (fd : PostFormData) :
    DB × Response :=
  login_required v db (fun u =>
    if PostForm_is_valid fd then
      let inst := PostForm_instance fd (freshPostId db)
      let inst := { inst with author := u.id }
      ({ db with posts := db.posts ++ [inst] }, .redirectProfile)
    else (db, .render "blog/create.html"))

/-- Saving a bound `PostForm` over an existing instance: the form's model
fields are written onto the row; pk and author are untouched (modelled
from the spec: `PostForm` in the missing `blog/forms.py` exposes no
author field — "Authorship is stamped server-side ... never trusted from
client input"). -/
def applyPostForm (fd : PostFormData) (p : Post) : Post :=
  { p with
    title := fd.title, text := fd.text, pub_date := fd.pub_date,
    is_published := fd.is_published, category := fd.category }

/-- `UpdateView.form_valid`'s save: the row with the edited pk gets the
form's fields written onto it. -/
def updatedPosts (db : DB) (post_id : Nat) (fd : PostFormData) : List Post :=
  db.posts.map (fun p => if p.id == post_id then applyPostForm fd p else p)

/-- `form.save()` in `edit_comment`: the edited comment's text is
replaced. -/
def updatedComments (db : DB) (comment_id : Nat) (text : String) :
    List Comment :=
  db.comments.map
    (fun c => if c.id == comment_id then { c with text := text } else c)

/-- `PostEditView` (`LoginRequiredMixin`, `OnlyAuthorMixin`, `UpdateView`):
`OnlyAuthorMixin.handle_no_permission` overrides
`AccessMixin.handle_no_permission` in the MRO, so an anonymous request
is answered by `redirect('blog:post_detail', post_id=self.get_object().id)`
— the post detail view, not the login flow (`get_object` raises `Http404`
first when the post is absent).  For an authenticated user, `test_func`
decides: on failure the same `handle_no_permission` redirect; on success
a valid form updates the row and redirects to the detail page, an
invalid form re-renders. -/
def PostEditView_handle (v : Viewer) (db : DB) (post_id : Nat)
    (fd : PostFormData) : DB × Response :=
  match get_post_or_404 db post_id with
  | none => (db, .notFound)
  | some post =>
    match v with
    | .anonymous => (db, .redirectPostDetail post.id)
    | .auth u =>
      if OnlyAuthorMixin.test_func post.author u then
        if PostForm_is_valid fd then
          ({ db with posts := updatedPosts db post_id fd },
            .redirectPostDetail post.id)
        else (db, .render "blog/create.html")
      else (db, .redirectPostDetail post.id)

/-- The store after `DeleteView` removes a post: the row is gone and so
are the comments referencing it (modelled from the spec: the `on_delete`
cascade lives in the missing `blog/models.py`; the spec mandates
"cascade delete with Post"). -/
def dbAfterPostDelete (db : DB) (post_id : Nat) : DB :=
  ⟨db.posts.filter (fun p => !(p.id == post_id)),
    db.comments.filter (fun c => !(c.post == post_id))⟩

/-- `comment.delete()`: the row with that pk is removed. -/
def remainingComments (db : DB) (comment_id : Nat) : List Comment :=
  db.comments.filter (fun c => !(c.id == comment_id))

/-- `PostDeleteView` (`LoginRequiredMixin`, `OnlyAuthorMixin`,
`DeleteView`): as in `PostEditView`, the overriding
`handle_no_permission` answers both an anonymous request and a failed
`test_func` with the post-detail redirect (never a login redirect); for
an authorized user GET renders the confirmation template and POST
deletes the post (and, modelled from the spec, its comments — the
`on_delete` cascade lives in the missing `blog/models.py`) and redirects
to the index. -/
def PostDeleteView_handle (v : Viewer) (db : DB) (post_id : Nat)
    (m : Method) : DB × Response :=
  match get_post_or_404 db post_id with
  | none => (db, .notFound)
  | some post =>
    match v with
    | .anonymous => (db, .redirectPostDetail post.id)
    | .auth u =>
      if OnlyAuthorMixin.test_func post.author u then
        match m with
        | .GET => (db, .render "blog/create.html")
        | .POST => (dbAfterPostDelete db post_id, .redirectIndex)
      else (db, .redirectPostDetail post.id)

/-- `add_comment(request, post_id)` (`@login_required`): a valid form
saves a comment whose author is overwritten with `request.user`; valid or
not, the handler redirects to the post's detail page. -/
def add_comment (v : Viewer) (db : DB) (post_id : Nat)
    (fd : CommentFormData) : DB × Response :=
  login_required v db (fun u =>
    match get_post_or_404 db post_id with
    | none => (db, .notFound)
    | some post =>
      if CommentForm_is_valid fd then
        let comment := CommentForm_instance fd (freshCommentId db)
        let comment := { comment with author := u.id, post := post.id }
        ({ db with comments := db.comments ++ [comment] },
          .redirectPostDetail post_id)
      else (db, .redirectPostDetail post_id))

/-- `edit_comment(request, post_id, comment_id)` (`@login_required`): a
non-author (superusers included) is redirected to the detail page; the
author gets `CommentForm(request.POST or None, instance=comment)` — a GET
yields an unbound, invalid form that re-renders, a valid POST saves the
new text and redirects. -/
def edit_comment (v : Viewer) (db : DB) (post_id comment_id : Nat)
    (fd : Option CommentFormData) : DB × Response :=
  login_required v db (fun u =>
    match db.comments.find? (fun c => c.id == comment_id) with
    | none => (db, .notFound)
    | some comment =>
      if comment.author != u.id then (db, .redirectPostDetail post_id)
      else
        match fd with
        | none => (db, .render "blog/comment.html")
        | some f =>
          if CommentForm_is_valid f then
            ({ db with comments := updatedComments db comment_id f.text },
              .redirectPostDetail post_id)
          else (db, .render "blog/comment.html"))

/-- `delete_comment(request, post_id, comment_id)` (`@login_required`): a
non-author (superusers included) is redirected; for the author, POST
deletes the row and redirects, GET renders the confirmation template. -/
def delete_comment (v : Viewer) (db : DB) (post_id comment_id : Nat)
    (m : Method) : DB × Response :=
  login_required v db (fun u =>
    match db.comments.find? (fun c => c.id == comment_id) with
    | none => (db, .notFound)
    | some comment =>
      if comment.author != u.id then (db, .redirectPostDetail post_id)
      else
        match m with
        | .POST =>
          ({ db with comments := remainingComments db comment_id },
            .redirectPostDetail post_id)
        | .GET => (db, .render "blog/comment.html"))

/-! ## Shared concrete sample data (used to instantiate theorems) -/

/-- A published category. -/
def cat0 : Category := ⟨"c", true⟩

/-- An unpublished category. -/
def catUnpub : Category := ⟨"h", false⟩

/-- A published post by user 7 in a published category. -/
def postPub : Post := ⟨1, "t", "b", 7, cat0, 0, true⟩

/-- An unpublished post by user 7. -/
def postUnpub : Post := ⟨2, "t", "b", 7, cat0, 0, false⟩

/-- A published, future-dated post by user 7 in an unpublished category. -/
def postHidden : Post := ⟨3, "t", "b", 7, catUnpub, 100, true⟩

/-- A sample store: two posts by user 7 and one comment (pk 5) by user 7
on post 1. -/
def db0 : DB := ⟨[postPub, postUnpub], [⟨5, 1, 7, "hi"⟩]⟩

/-- A store holding only the hidden-but-published post. -/
def db1 : DB := ⟨[postHidden], []⟩

/-- Sample valid comment-form data (client smuggled author 9). -/
def fd0 : CommentFormData := ⟨"hello", 9⟩

/-- Sample valid post-form data (client smuggled author 9). -/
def pfd0 : PostFormData := ⟨"t2", "b2", 4, true, cat0, 9⟩

/-! ## Helper lemmas -/

/-- Membership in the `available` filter chain, unfolded. -/
theorem mem_available_iff (now : Int) (qs : List Post) (p : Post) :
    p ∈ PostQuerySet.available now qs ↔
      p ∈ qs ∧ p.is_published = true ∧ p.category.is_published = true ∧
        p.pub_date ≤ now := by
  simp [PostQuerySet.available, PostQuerySet.published_up_to_now,
    PostQuerySet.published, PostQuerySet.category_published,
    List.mem_filter]
  tauto

/-- There is always at least one page. -/
theorem one_le_num_pages (count : Nat) : 1 ≤ Paginator_num_pages count := by
  unfold Paginator_num_pages POSTS_PER_PAGE
  omega

/-- The resolved page number always lands in `[1, num_pages]`. -/
theorem resolve_page_bounds (count : Nat) (pn : PageNumber) :
    1 ≤ Paginator_resolve_page count pn ∧
      Paginator_resolve_page count pn ≤ Paginator_num_pages count := by
  have h1 := one_le_num_pages count
  rcases pn with _ | _ | k
  · exact ⟨le_refl 1, h1⟩
  · exact ⟨le_refl 1, h1⟩
  · simp only [Paginator_resolve_page]
    split
    · exact ⟨h1, le_refl _⟩
    · split
      · exact ⟨h1, le_refl _⟩
      · omega

/-- **C5** (pagination is total and clamped): every page the helper
returns holds at most `POSTS_PER_PAGE = 10` items; an absent or
non-integer page number resolves to page 1; a page number beyond the
last page resolves to the last page; and the resolved page always lies
in `[1, num_pages]`, so no input leaves the caller without a valid
page (the helper is a total function — it raises nothing). -/
theorem c5_pagination_safe (items : List Post) (pn : PageNumber) (n : Int)
    (hn : (Paginator_num_pages items.length : Int) < n) :
    (paginate_queryset items pn).2.length ≤ POSTS_PER_PAGE ∧
    (paginate_queryset items .absent).1 = 1 ∧
    (paginate_queryset items .invalid).1 = 1 ∧
    (paginate_queryset items (.num n)).1 = Paginator_num_pages items.length ∧
    1 ≤ (paginate_queryset items pn).1 ∧
    (paginate_queryset items pn).1 ≤ Paginator_num_pages items.length := by
  have hb := resolve_page_bounds items.length pn
  refine ⟨?_, rfl, rfl, ?_, hb.1, hb.2⟩
  · simp only [paginate_queryset, Paginator_page_items, List.length_take]
    omega
  · have h1 : ¬ n < 1 := by
      have := one_le_num_pages items.length
      omega
    simp [paginate_queryset, Paginator_resolve_page, h1, hn]

/-- Concrete instantiation of `c5_pagination_safe`: 11 items, two pages;
page 99 clamps to page 2. -/
theorem c5_pagination_safe_witness :
    (paginate_queryset (List.replicate 11 postPub) .absent).2.length ≤
        POSTS_PER_PAGE ∧
    (paginate_queryset (List.replicate 11 postPub) .absent).1 = 1 ∧
    (paginate_queryset (List.replicate 11 postPub) .invalid).1 = 1 ∧
    (paginate_queryset (List.replicate 11 postPub) (.num 99)).1 =
        Paginator_num_pages (List.replicate 11 postPub).length ∧
    1 ≤ (paginate_queryset (List.replicate 11 postPub) .absent).1 ∧
    (paginate_queryset (List.replicate 11 postPub) .absent).1 ≤
        Paginator_num_pages (List.replicate 11 postPub).length :=
  c5_pagination_safe (List.replicate 11 postPub) .absent 99 (by decide)

/-- **C4** (unpublished posts are hidden, not forbidden): for a stored
post with `is_published = false`, every viewer who is not its author —
the anonymous viewer included — receives the generic not-found result
(the code raises `Http404`, never a permission-denied response), while
the author's own GET renders the detail template with the post. -/
theorem c4_unpublished_detail_404 (db : DB) (post_id : Nat) (post : Post)
    (v : Viewer) (u : User) (fd fd' : CommentFormData)
    (hfind : get_post_or_404 db post_id = some post)
    (hunpub : post.is_published = false)
    (hnota : viewerIs v post.author = false)
    (hauth : u.id = post.author) :
    post_detail db v .GET fd post_id = (db, .notFound) ∧
    post_detail db (.auth u) .GET fd' post_id =
      (db, .render "blog/detail.html") := by
  constructor
  · simp [post_detail, hfind, hunpub, hnota]
  · simp [post_detail, hfind, hunpub, viewerIs, hauth]

/-- Concrete instantiation of `c4_unpublished_detail_404`: anonymous
viewer vs author (user 7) on unpublished post 2. -/
theorem c4_unpublished_detail_404_witness :
    post_detail db0 .anonymous .GET fd0 2 = (db0, .notFound) ∧
    post_detail db0 (.auth ⟨7, false⟩) .GET fd0 2 =
      (db0, .render "blog/detail.html") :=
  c4_unpublished_detail_404 db0 2 postUnpub .anonymous ⟨7, false⟩ fd0 fd0
    (by decide) (by decide) (by decide) (by decide)

/-- **C10** (the detail view is strictly more permissive than the
availability rule): a stored post with `is_published = true` is rendered
with success to every viewer — anonymous included — with no condition on
its category's publication flag or its publish timestamp; in particular
a post whose category is unpublished or whose publish time lies in the
future is rendered even though it is excluded from the `available`
listing set. -/
theorem c10_published_detail_renders (db : DB) (post_id : Nat)
    (post : Post) (v : Viewer) (fd : CommentFormData) (now : Int)
    (hfind : get_post_or_404 db post_id = some post)
    (hpub : post.is_published = true)
    (hhidden : post.category.is_published = false ∨ now < post.pub_date) :
    post_detail db v .GET fd post_id = (db, .render "blog/detail.html") ∧
    post ∉ PostQuerySet.available now db.posts := by
  constructor
  · simp [post_detail, hfind, hpub]
  · intro hmem
    rcases (mem_available_iff now db.posts post).mp hmem with
      ⟨_, _, hcat, hdate⟩
    rcases hhidden with h | h
    · rw [hcat] at h
      exact Bool.noConfusion h
    · omega

/-- Concrete instantiation of `c10_published_detail_renders`: the
published post 3 sits in an unpublished category, yet an anonymous GET
renders it while the index's `available` set excludes it. -/
theorem c10_published_detail_renders_witness :
    post_detail db1 .anonymous .GET fd0 3 = (db1, .render "blog/detail.html") ∧
    postHidden ∉ PostQuerySet.available 0 db1.posts :=
  c10_published_detail_renders db1 3 postHidden .anonymous fd0 0
    (by decide) (by decide) (by decide)

/-- **C2 counterexample**: superuser 2 is not the author of comment 5
(authored by user 7).  `OnlyAuthorMixin.test_func` would authorize them,
but `edit_comment` and `delete_comment` turn them away — the store is
untouched and they are redirected — whereas the author's identical edit
request does go through.  The claimed uniform author-or-superuser rule
is therefore false for comment mutations. -/
theorem c2_superuser_comment_refused :
    OnlyAuthorMixin.test_func 7 ⟨2, true⟩ = true ∧
    edit_comment (.auth ⟨2, true⟩) db0 1 5 (some ⟨"changed", 2⟩) =
      (db0, .redirectPostDetail 1) ∧
    delete_comment (.auth ⟨2, true⟩) db0 1 5 .POST =
      (db0, .redirectPostDetail 1) ∧
    edit_comment (.auth ⟨7, false⟩) db0 1 5 (some ⟨"changed", 2⟩) =
      (⟨[postPub, postUnpub], [⟨5, 1, 7, "changed"⟩]⟩,
        .redirectPostDetail 1) := by
  decide

/-- **C2 amended**: with the target rows present, post edit and post
delete are guarded by `test_func` — acting user is the author or a
superuser — while comment edit and comment delete are guarded by plain
author equality: a superuser who is not the comment's author gets no
bypass.  Each handler either performs its mutation or redirects with the
store untouched, exactly according to its guard. -/
theorem c2_amended_guards (db : DB) (u : User) (post_id comment_id : Nat)
    (post : Post) (comment : Comment) (pfd : PostFormData)
    (cfd : CommentFormData)
    (hp : get_post_or_404 db post_id = some post)
    (hc : db.comments.find? (fun c => c.id == comment_id) = some comment) :
    (PostEditView_handle (.auth u) db post_id pfd =
      if post.author == u.id || u.is_superuser then
        if PostForm_is_valid pfd then
          ({ db with posts := updatedPosts db post_id pfd },
            .redirectPostDetail post.id)
        else (db, .render "blog/create.html")
      else (db, .redirectPostDetail post.id)) ∧
    (PostDeleteView_handle (.auth u) db post_id .POST =
      if post.author == u.id || u.is_superuser then
        (dbAfterPostDelete db post_id, .redirectIndex)
      else (db, .redirectPostDetail post.id)) ∧
    (edit_comment (.auth u) db post_id comment_id (some cfd) =
      if comment.author == u.id then
        if CommentForm_is_valid cfd then
          ({ db with comments := updatedComments db comment_id cfd.text },
            .redirectPostDetail post_id)
        else (db, .render "blog/comment.html")
      else (db, .redirectPostDetail post_id)) ∧
    (delete_comment (.auth u) db post_id comment_id .POST =
      if comment.author == u.id then
        ({ db with comments := remainingComments db comment_id },
          .redirectPostDetail post_id)
      else (db, .redirectPostDetail post_id)) := by
  refine ⟨?_, ?_, ?_, ?_⟩
  · simp [PostEditView_handle, login_required, hp, OnlyAuthorMixin.test_func]
  · simp [PostDeleteView_handle, login_required, hp,
      OnlyAuthorMixin.test_func]
  · cases hab : comment.author == u.id <;>
      simp [edit_comment, login_required, hc, bne, hab]
  · cases hab : comment.author == u.id <;>
      simp [delete_comment, login_required, hc, bne, hab]

/-- Concrete instantiation of `c2_amended_guards` at superuser 2 against
user 7's post 1 and comment 5. -/
theorem c2_amended_guards_witness :
    (PostEditView_handle (.auth ⟨2, true⟩) db0 1 pfd0 =
      if postPub.author == 2 || true then
        if PostForm_is_valid pfd0 then
          ({ db0 with posts := updatedPosts db0 1 pfd0 },
            .redirectPostDetail postPub.id)
        else (db0, .render "blog/create.html")
      else (db0, .redirectPostDetail postPub.id)) ∧
    (PostDeleteView_handle (.auth ⟨2, true⟩) db0 1 .POST =
      if postPub.author == 2 || true then
        (dbAfterPostDelete db0 1, .redirectIndex)
      else (db0, .redirectPostDetail postPub.id)) ∧
    (edit_comment (.auth ⟨2, true⟩) db0 1 5 (some fd0) =
      if (7 : Nat) == 2 then
        if CommentForm_is_valid fd0 then
          ({ db0 with comments := updatedComments db0 5 fd0.text },
            .redirectPostDetail 1)
        else (db0, .render "blog/comment.html")
      else (db0, .redirectPostDetail 1)) ∧
    (delete_comment (.auth ⟨2, true⟩) db0 1 5 .POST =
      if (7 : Nat) == 2 then
        ({ db0 with comments := remainingComments db0 5 },
          .redirectPostDetail 1)
      else (db0, .redirectPostDetail 1)) :=
  c2_amended_guards db0 ⟨2, true⟩ 1 5 postPub ⟨5, 1, 7, "hi"⟩ pfd0 fd0
    (by decide) (by decide)

/-- **C3** (unauthorized mutations are silent no-ops): an authenticated
user who is neither the resource's author nor a superuser gets, from
every edit/delete handler — post edit, post delete, comment edit,
comment delete — an unchanged store and a redirect to the corresponding
post's detail view, never an error page. -/
theorem c3_unauthorized_no_mutation (db : DB) (u : User)
    (post_id comment_id : Nat) (post : Post) (comment : Comment)
    (pfd : PostFormData) (cfd : Option CommentFormData) (m m' : Method)
    (hp : get_post_or_404 db post_id = some post)
    (hc : db.comments.find? (fun c => c.id == comment_id) = some comment)
    (hpa : post.author ≠ u.id) (hca : comment.author ≠ u.id)
    (hsu : u.is_superuser = false) :
    PostEditView_handle (.auth u) db post_id pfd =
      (db, .redirectPostDetail post.id) ∧
    PostDeleteView_handle (.auth u) db post_id m =
      (db, .redirectPostDetail post.id) ∧
    edit_comment (.auth u) db post_id comment_id cfd =
      (db, .redirectPostDetail post_id) ∧
    delete_comment (.auth u) db post_id comment_id m' =
      (db, .redirectPostDetail post_id) := by
  have htf : OnlyAuthorMixin.test_func post.author u = false := by
    simp [OnlyAuthorMixin.test_func, hsu]
    exact hpa
  have hbne : (comment.author != u.id) = true := bne_iff_ne.mpr hca
  refine ⟨?_, ?_, ?_, ?_⟩
  · simp [PostEditView_handle, login_required, hp, htf]
  · simp [PostDeleteView_handle, login_required, hp, htf]
  · simp [edit_comment, login_required, hc, hbne]
  · simp [delete_comment, login_required, hc, hbne]

/-- Concrete instantiation of `c3_unauthorized_no_mutation`: ordinary
user 9 attacking user 7's post 1 and comment 5. -/
theorem c3_unauthorized_no_mutation_witness :
    PostEditView_handle (.auth ⟨9, false⟩) db0 1 pfd0 =
      (db0, .redirectPostDetail postPub.id) ∧
    PostDeleteView_handle (.auth ⟨9, false⟩) db0 1 .POST =
      (db0, .redirectPostDetail postPub.id) ∧
    edit_comment (.auth ⟨9, false⟩) db0 1 5 (some fd0) =
      (db0, .redirectPostDetail 1) ∧
    delete_comment (.auth ⟨9, false⟩) db0 1 5 .POST =
      (db0, .redirectPostDetail 1) :=
  c3_unauthorized_no_mutation db0 ⟨9, false⟩ 1 5 postPub ⟨5, 1, 7, "hi"⟩
    pfd0 (some fd0) .POST .POST (by decide) (by decide) (by decide)
    (by decide) (by decide)

/-- **C6** (authentication gate, evaluated at the failing inputs): no
anonymous mutating request changes the store, but the claimed
redirect-to-login holds only for the `@login_required` function views
and `PostCreateView`.  It fails twice: `post_detail`, which accepts
anonymous requests, runs its comment-creation branch on POST — with
valid comment data it reaches `comment.author = request.user`, which
Django rejects for an `AnonymousUser` with an unhandled `ValueError` (a
server error) — and `PostEditView`/`PostDeleteView` answer anonymous
requests with the post-detail redirect, because
`OnlyAuthorMixin.handle_no_permission` overrides the login-redirecting
`AccessMixin` behavior in their MRO. -/
theorem c6_anonymous_comment_post_crashes :
    post_detail db0 .anonymous .POST fd0 1 = (db0, .serverError) ∧
    add_comment .anonymous db0 1 fd0 = (db0, .redirectLogin) ∧
    edit_comment .anonymous db0 1 5 (some fd0) = (db0, .redirectLogin) ∧
    delete_comment .anonymous db0 1 5 .POST = (db0, .redirectLogin) ∧
    PostCreateView_handle .anonymous db0 pfd0 = (db0, .redirectLogin) ∧
    PostEditView_handle .anonymous db0 1 pfd0 =
      (db0, .redirectPostDetail 1) ∧
    PostDeleteView_handle .anonymous db0 1 .POST =
      (db0, .redirectPostDetail 1) := by
  decide

/-- **C7 counterexample**: authenticated user 7 submits an empty comment
to `add_comment` on post 1; no row is created, but the response is a
redirect to the post's detail view — not a re-render of the comment form
with a validation error. -/
theorem c7_empty_comment_redirect :
    add_comment (.auth ⟨7, false⟩) db0 1 ⟨"", 7⟩ =
      (db0, .redirectPostDetail 1) := by
  decide

/-- **C7 amended**: an authenticated submission of an empty comment via
`add_comment` creates no comment row (the store is unchanged) and is
answered with a redirect to the post's detail view. -/
theorem c7_amended_empty_comment (db : DB) (u : User) (post_id : Nat)
    (post : Post) (ca : Nat)
    (hp : get_post_or_404 db post_id = some post) :
    add_comment (.auth u) db post_id ⟨"", ca⟩ =
      (db, .redirectPostDetail post_id) := by
  simp [add_comment, login_required, hp, CommentForm_is_valid]

/-- Concrete instantiation of `c7_amended_empty_comment`. -/
theorem c7_amended_empty_comment_witness :
    add_comment (.auth ⟨9, false⟩) db0 1 ⟨"", 3⟩ =
      (db0, .redirectPostDetail 1) :=
  c7_amended_empty_comment db0 ⟨9, false⟩ 1 postPub 3 (by decide)

/-- **C8** (comment counts are exact): every pair produced by
`PostQuerySet.with_comment_count` carries exactly the number of comment
rows referencing that post, and so does every pair the `index` view
builds with its per-post `post.comments.count()` loop. -/
theorem c8_comment_count_exact (comments : List Comment) (qs : List Post)
    (db : DB) (now : Int) (pn : PageNumber) (pr pc : Post × Nat)
    (h : pr ∈ PostQuerySet.with_comment_count comments qs)
    (h' : pc ∈ index db now pn) :
    pr.2 = comments.countP (fun c => c.post == pr.1.id) ∧
    pc.2 = db.comments.countP (fun c => c.post == pc.1.id) := by
  constructor
  · rw [PostQuerySet.with_comment_count] at h
    obtain ⟨p, _, heq⟩ := List.mem_map.mp h
    rw [← heq]
    simp [List.countP_eq_length_filter]
  · rw [index] at h'
    obtain ⟨p, _, heq⟩ := List.mem_map.mp h'
    rw [← heq]
    simp [List.countP_eq_length_filter]

/-- Concrete instantiation of `c8_comment_count_exact`: post 1 has one
comment, and both the annotated queryset and the index page report 1. -/
theorem c8_comment_count_exact_witness :
    ((postPub, 1) : Post × Nat).2 =
      db0.comments.countP (fun c => c.post == (postPub, 1).1.id) ∧
    ((postPub, 1) : Post × Nat).2 =
      db0.comments.countP (fun c => c.post == (postPub, 1).1.id) :=
  c8_comment_count_exact db0.comments [postPub] db0 0 .absent
    (postPub, 1) (postPub, 1) (by decide) (by decide)

/-- **C9** (authorship is stamped server-side): with a valid form, the
created post/comment's stored author is the authenticated acting user's
id, and two submissions differing only in the client-supplied author
value produce identical results. -/
theorem c9_author_stamped (db : DB) (u : User) (post_id : Nat)
    (post : Post) (pfd : PostFormData) (cfd : CommentFormData)
    (ca ca' : Nat)
    (hp : get_post_or_404 db post_id = some post)
    (hcv : CommentForm_is_valid cfd = true)
    (hpv : PostForm_is_valid pfd = true) :
    PostCreateView_handle (.auth u) db { pfd with client_author := ca } =
      PostCreateView_handle (.auth u) db { pfd with client_author := ca' } ∧
    (PostCreateView_handle (.auth u) db pfd).1.posts =
      db.posts ++
        [{ PostForm_instance pfd (freshPostId db) with author := u.id }] ∧
    add_comment (.auth u) db post_id { cfd with client_author := ca } =
      add_comment (.auth u) db post_id { cfd with client_author := ca' } ∧
    (add_comment (.auth u) db post_id cfd).1.comments =
      db.comments ++
        [{ CommentForm_instance cfd (freshCommentId db) with
            author := u.id, post := post.id }] := by
  refine ⟨rfl, ?_, rfl, ?_⟩
  · simp [PostCreateView_handle, login_required, hpv]
  · simp [add_comment, login_required, hp, hcv]

/-- Concrete instantiation of `c9_author_stamped`: user 9 creates a post
and a comment; smuggled author values 3 and 4 make no difference and the
stored author is 9. -/
theorem c9_author_stamped_witness :
    PostCreateView_handle (.auth ⟨9, false⟩) db0
        { pfd0 with client_author := 3 } =
      PostCreateView_handle (.auth ⟨9, false⟩) db0
        { pfd0 with client_author := 4 } ∧
    (PostCreateView_handle (.auth ⟨9, false⟩) db0 pfd0).1.posts =
      db0.posts ++
        [{ PostForm_instance pfd0 (freshPostId db0) with author := 9 }] ∧
    add_comment (.auth ⟨9, false⟩) db0 1 { fd0 with client_author := 3 } =
      add_comment (.auth ⟨9, false⟩) db0 1 { fd0 with client_author := 4 } ∧
    (add_comment (.auth ⟨9, false⟩) db0 1 fd0).1.comments =
      db0.comments ++
        [{ CommentForm_instance fd0 (freshCommentId db0) with
            author := 9, post := postPub.id }] :=
  c9_author_stamped db0 ⟨9, false⟩ 1 postPub pfd0 fd0 3 4 (by decide)
    (by decide) (by decide)
